import Mathlib

/-!
Verification of the core simulation engine of `src/Carlos.py`
(class `CarbonCreditSimulation`).

Modelling conventions:
* Python floats / NumPy arrays of floats are modelled by `ℚ` and `List ℚ`
  (exact arithmetic over the rationals).
* The shared NumPy random source is modelled by explicit noise streams
  `noise : ℕ → ℚ` of standard-normal draws: `np.random.normal(mean, std, n)`
  is the list `[mean + std * noise 0, …, mean + std * noise (n-1)]`.
* A pandas DataFrame of the equilibrium records is a `List (ℚ × ℚ × ℚ)` of
  `(stock_price, flow_price, conservation_npv)` triples.  Column access on the
  DataFrame built from an empty record list raises `KeyError` in pandas (the
  empty frame has no columns); that failure is modelled by `Option.none`.
-/

/-- State of `CarbonCreditSimulation.__init__` (src/Carlos.py lines 9-16):
the trial count, the two hard-coded physical constants, the discount rate and
the time horizon. -/
structure CarbonCreditSimulation where
  num_simulations : ℕ
  CARBON_STOCK : ℚ
  ANNUAL_ABSORPTION : ℚ
  DISCOUNT_RATE : ℚ
  TIME_HORIZON : ℕ

/-- `CarbonCreditSimulation.__init__`: stores the arguments unchecked and sets
`CARBON_STOCK = 569`, `ANNUAL_ABSORPTION = 9.5`.  The constructor performs no
validation of any argument. -/
def CarbonCreditSimulation.init (num_simulations : ℕ) (discount_rate : ℚ)
    (time_horizon : ℕ) : CarbonCreditSimulation :=
  { num_simulations := num_simulations
    CARBON_STOCK := 569
    ANNUAL_ABSORPTION := 19/2
    DISCOUNT_RATE := discount_rate
    TIME_HORIZON := time_horizon }

/-- `CarbonCreditSimulation.calculate_npv` (lines 22-29):
`years = arange(len(cash_flows))`, `discount_factors = 1/(1+r)**years`,
result `= sum(cash_flows * discount_factors)`.  The Python default argument
`discount_rate=None` resolves to `self.DISCOUNT_RATE`; callers below pass
`sim.DISCOUNT_RATE` explicitly to model that resolution. -/
def calculate_npv (cash_flows : List ℚ) (discount_rate : ℚ) : ℚ :=
  let years := List.range cash_flows.length
  let discount_factors := years.map (fun t => 1 / (1 + discount_rate) ^ t)
  (List.zipWith (fun cf d => cf * d) cash_flows discount_factors).sum

/-- `CarbonCreditSimulation.generate_price_scenarios` (lines 18-20):
`np.random.normal(mean_price, std_dev, self.num_simulations)`, with the random
source as an explicit stream of standard-normal draws. -/
def CarbonCreditSimulation.generate_price_scenarios (sim : CarbonCreditSimulation)
    (mean_price std_dev : ℚ) (noise : ℕ → ℚ) : List ℚ :=
  (List.range sim.num_simulations).map (fun i => mean_price + std_dev * noise i)

/-- The per-trial cash-flow construction inside
`CarbonCreditSimulation.simulate_conventional_use` (lines 42-53):
`cash_flows = np.zeros(TIME_HORIZON)`; `cash_flows[0] = timber_value` when
`timber_value > 0`; then every even year adds the trial's cattle revenue and
every odd year adds its soy revenue.  Faithful for `time_horizon ≥ 1` (and also
for `time_horizon = 0` with `timber_value ≤ 0`; for `time_horizon = 0` with
`timber_value > 0` the Python write `cash_flows[0] = …` raises `IndexError`). -/
def conventional_cash_flows (timber_value cattle_revenue soy_revenue : ℚ)
    (time_horizon : ℕ) : List ℚ :=
  (List.range time_horizon).map (fun year =>
    (if year = 0 ∧ timber_value > 0 then timber_value else 0) +
      (if year % 2 = 0 then cattle_revenue else soy_revenue))

/-- `CarbonCreditSimulation.simulate_conventional_use` (lines 31-58): one full
normal sample per revenue stream, then for each trial `i` the cash-flow vector
built from that trial's `cattle_revenues[i]` and `soy_revenues[i]` is
discounted with `self.DISCOUNT_RATE`. -/
def CarbonCreditSimulation.simulate_conventional_use (sim : CarbonCreditSimulation)
    (timber_value cattle_mean cattle_std soy_mean soy_std : ℚ)
    (cattle_noise soy_noise : ℕ → ℚ) : List ℚ :=
  let cattle_revenues := sim.generate_price_scenarios cattle_mean cattle_std cattle_noise
  let soy_revenues := sim.generate_price_scenarios soy_mean soy_std soy_noise
  (List.range sim.num_simulations).map (fun i =>
    calculate_npv
      (conventional_cash_flows timber_value (cattle_revenues.getD i 0)
        (soy_revenues.getD i 0) sim.TIME_HORIZON)
      sim.DISCOUNT_RATE)

/-- `np.linspace start stop num`: `num` evenly spaced points from `start` to
`stop` inclusive, step `(stop - start) / (num - 1)`. -/
def linspace (start stop : ℚ) (num : ℕ) : List ℚ :=
  (List.range num).map (fun (i : ℕ) => start + (stop - start) * (i : ℚ) / ((num : ℚ) - 1))

/-- `np.percentile(xs, 75)` with the default linear interpolation: on the
ascending sort `s` of `xs` (length `n`), the virtual index is
`h = 3*(n-1)/4`; with `k = ⌊h⌋` and `γ = h - k` the result is
`s[k] + γ * (s[k+1] - s[k])`. -/
def percentile75 (xs : List ℚ) : ℚ :=
  let s := xs.insertionSort (fun a b => a ≤ b)
  let n := s.length
  let k : ℕ := 3 * (n - 1) / 4
  let γ : ℚ := 3 * ((n : ℚ) - 1) / 4 - (k : ℚ)
  s.getD k 0 + γ * (s.getD (k + 1) (s.getD k 0) - s.getD k 0)

/-- The stock-credit price axis of
`CarbonCreditSimulation.find_equilibrium_carbon_prices` (line 63):
`np.linspace(0, 1000, 100)`. -/
def stock_credit_prices : List ℚ := linspace 0 1000 100

/-- The flow-credit price axis (line 64): `np.linspace(0, 1000, 100)`. -/
def flow_credit_prices : List ℚ := linspace 0 1000 100

/-- The conservation cash-flow vector built for one grid point inside
`find_equilibrium_carbon_prices` (lines 71-78):
`np.zeros(TIME_HORIZON)`; `[0] = CARBON_STOCK * stock_price`;
`[1:] = ANNUAL_ABSORPTION * flow_price`.  Faithful for `TIME_HORIZON ≥ 1`
(for `TIME_HORIZON = 0` the Python write to index 0 raises `IndexError`). -/
def conservation_cash_flow_vec (sim : CarbonCreditSimulation)
    (stock_price flow_price : ℚ) : List ℚ :=
  (List.range sim.TIME_HORIZON).map (fun year =>
    if year = 0 then sim.CARBON_STOCK * stock_price
    else sim.ANNUAL_ABSORPTION * flow_price)

/-- The conservation NPV of one grid point (line 80). -/
def conservation_npv (sim : CarbonCreditSimulation) (stock_price flow_price : ℚ) : ℚ :=
  calculate_npv (conservation_cash_flow_vec sim stock_price flow_price) sim.DISCOUNT_RATE

/-- `CarbonCreditSimulation.find_equilibrium_carbon_prices` (lines 60-90):
for every pair on the 100×100 price grid, build the conservation cash-flow
vector, discount it, and keep the record
`(stock_price, flow_price, conservation_npv)` iff
`conservation_npv >= np.percentile(conventional_npvs, 75)` — the percentile is
recomputed from the distribution inside the loop, at every grid cell. -/
def CarbonCreditSimulation.find_equilibrium_carbon_prices (sim : CarbonCreditSimulation)
    (conventional_npvs : List ℚ) : List (ℚ × ℚ × ℚ) :=
  stock_credit_prices.flatMap (fun stock_price =>
    flow_credit_prices.filterMap (fun flow_price =>
      let npv := conservation_npv sim stock_price flow_price
      if npv ≥ percentile75 conventional_npvs then
        some (stock_price, flow_price, npv)
      else none))

/-- Modelled from the spec (§4.5 EquilibriumPriceSearch): the decoupled search
in which the competitiveness threshold is computed once by the caller and
supplied as a single scalar; the search itself never sees the distribution. -/
def search_with_scalar_threshold (sim : CarbonCreditSimulation)
    (competitiveness_threshold : ℚ) : List (ℚ × ℚ × ℚ) :=
  stock_credit_prices.flatMap (fun stock_price =>
    flow_credit_prices.filterMap (fun flow_price =>
      let npv := conservation_npv sim stock_price flow_price
      if npv ≥ competitiveness_threshold then
        some (stock_price, flow_price, npv)
      else none))

/-- `np.mean`. -/
def series_mean (xs : List ℚ) : ℚ := xs.sum / (xs.length : ℚ)

/-- `pandas.Series.min` on a non-empty column: least element of the sort. -/
def series_min (xs : List ℚ) : ℚ := (xs.insertionSort (fun a b => a ≤ b)).getD 0 0

/-- `pandas.Series.median`: midpoint of the ascending sort (mean of the two
middle elements for even length). -/
def series_median (xs : List ℚ) : ℚ :=
  let s := xs.insertionSort (fun a b => a ≤ b)
  let n := s.length
  if n % 2 = 1 then s.getD (n / 2) 0
  else (s.getD (n / 2 - 1) 0 + s.getD (n / 2) 0) / 2

/-- Column access `df[col]` on the DataFrame built from the equilibrium record
list: `pd.DataFrame([])` has no columns, so column access on the empty frame
raises `KeyError` — modelled by `none`. -/
def df_get_column (rows : List (ℚ × ℚ × ℚ)) (col : ℚ × ℚ × ℚ → ℚ) : Option (List ℚ) :=
  if rows.isEmpty then none else some (rows.map col)

/-- The `results` record assembled by `run_simulation` (lines 104-111). -/
structure SimulationResult where
  conventional_npv_mean : ℚ
  conventional_npv_p75 : ℚ
  min_stock_price : ℚ
  min_flow_price : ℚ
  recommended_stock_price : ℚ
  recommended_flow_price : ℚ

/-- The summary-statistics step of `run_simulation` (lines 103-111):
mean and 75th percentile of the distribution, min and median of the
`stock_price` and `flow_price` columns of the equilibrium DataFrame.  The
column accesses are unguarded: with an empty equilibrium list they raise
`KeyError` (`none`); there is no distinct "no equilibrium found" variant. -/
def run_simulation_results (conventional_npvs : List ℚ)
    (equilibrium_prices : List (ℚ × ℚ × ℚ)) : Option SimulationResult :=
  match df_get_column equilibrium_prices (fun p => p.1),
        df_get_column equilibrium_prices (fun p => p.2.1) with
  | some stocks, some flows =>
      some { conventional_npv_mean := series_mean conventional_npvs
             conventional_npv_p75 := percentile75 conventional_npvs
             min_stock_price := series_min stocks
             min_flow_price := series_min flows
             recommended_stock_price := series_median stocks
             recommended_flow_price := series_median flows }
  | _, _ => none

/-- `CarbonCreditSimulation.run_simulation` (lines 92-113): simulate the
conventional NPV distribution, search the price grid, assemble the summary
record, and return `(results, equilibrium_prices, conventional_npvs)`. -/
def CarbonCreditSimulation.run_simulation (sim : CarbonCreditSimulation)
    (timber_value cattle_mean cattle_std soy_mean soy_std : ℚ)
    (cattle_noise soy_noise : ℕ → ℚ) :
    Option SimulationResult × List (ℚ × ℚ × ℚ) × List ℚ :=
  let conventional_npvs := sim.simulate_conventional_use timber_value cattle_mean
    cattle_std soy_mean soy_std cattle_noise soy_noise
  let equilibrium_prices := sim.find_equilibrium_carbon_prices conventional_npvs
  (run_simulation_results conventional_npvs equilibrium_prices,
    equilibrium_prices, conventional_npvs)

/-! ### Bridging lemmas -/

/-- The elementwise product-sum in `calculate_npv` as a `Finset.range` sum. -/
lemma zipWith_mul_map_range_sum (v : List ℚ) (f : ℕ → ℚ) :
    (List.zipWith (fun cf d => cf * d) v ((List.range v.length).map f)).sum =
      ∑ t ∈ Finset.range v.length, v.getD t 0 * f t := by
  induction v generalizing f with
  | nil => simp
  | cons a tl ih =>
    rw [List.length_cons, List.range_succ_eq_map, List.map_cons, List.map_map,
      List.zipWith_cons_cons, List.sum_cons, ih, Finset.sum_range_succ']
    simp [Function.comp, add_comm]

/-- `calculate_npv` in closed summation form. -/
lemma calculate_npv_eq_sum (v : List ℚ) (r : ℚ) :
    calculate_npv v r =
      ∑ t ∈ Finset.range v.length, v.getD t 0 * (1 / (1 + r) ^ t) := by
  unfold calculate_npv
  exact zipWith_mul_map_range_sum v _

/-- Summing `getD` over the index range gives the list sum. -/
lemma sum_getD_eq_sum (v : List ℚ) :
    ∑ t ∈ Finset.range v.length, v.getD t 0 = v.sum := by
  induction v with
  | nil => simp
  | cons a tl ih =>
    rw [List.length_cons, Finset.sum_range_succ', List.sum_cons]
    simp only [List.getD_cons_succ, List.getD_cons_zero]
    rw [ih, add_comm]

/-- `getD` on a mapped range evaluates the generating function. -/
lemma getD_map_range (g : ℕ → ℚ) {n t : ℕ} (ht : t < n) :
    ((List.range n).map g).getD t 0 = g t := by
  rw [List.getD_eq_getElem?_getD, List.getElem?_map, List.getElem?_range ht]
  rfl

/-- Closed form of the conservation NPV of one grid point. -/
lemma conservation_npv_eq_sum (sim : CarbonCreditSimulation) (s f : ℚ) :
    conservation_npv sim s f =
      ∑ t ∈ Finset.range sim.TIME_HORIZON,
        (if t = 0 then sim.CARBON_STOCK * s else sim.ANNUAL_ABSORPTION * f) *
          (1 / (1 + sim.DISCOUNT_RATE) ^ t) := by
  unfold conservation_npv conservation_cash_flow_vec
  rw [calculate_npv_eq_sum, List.length_map, List.length_range]
  exact Finset.sum_congr rfl fun t ht => by
    rw [getD_map_range _ (Finset.mem_range.mp ht)]

/-! ### Claims -/

/-- C2: for every cash-flow vector `v` and discount rate `r ∈ [0,1)`,
`calculate_npv v r` equals `Σ_{t<n} v[t] / (1+r)^t`, and at `r = 0` it equals
the plain sum of the entries, with no special-casing. -/
theorem C2_calculate_npv_formula (v : List ℚ) (r : ℚ) (h0 : 0 ≤ r) (h1 : r < 1) :
    calculate_npv v r = ∑ t ∈ Finset.range v.length, v.getD t 0 / (1 + r) ^ t ∧
    calculate_npv v 0 = v.sum := by
  constructor
  · rw [calculate_npv_eq_sum]
    exact Finset.sum_congr rfl fun t _ => mul_one_div _ _
  · rw [calculate_npv_eq_sum]
    simpa using sum_getD_eq_sum v

/-- Witness for C2 at `v = [3, 4]`, `r = 1/2`. -/
theorem C2_calculate_npv_formula_witness :
    (0:ℚ) ≤ 1/2 ∧ (1/2:ℚ) < 1 ∧
      (calculate_npv [3, 4] (1/2) =
          ∑ t ∈ Finset.range ([3, 4] : List ℚ).length,
            ([3, 4] : List ℚ).getD t 0 / (1 + 1/2) ^ t ∧
        calculate_npv [3, 4] 0 = ([3, 4] : List ℚ).sum) :=
  ⟨by norm_num, by norm_num,
    C2_calculate_npv_formula [3, 4] (1/2) (by norm_num) (by norm_num)⟩

/-- C10: the search as implemented (75th percentile recomputed from the
distribution at every grid cell) returns exactly the same equilibrium set as
the spec's decoupled formulation in which the percentile is computed once and
passed as a single scalar threshold. -/
theorem C10_search_refines_scalar_threshold (sim : CarbonCreditSimulation)
    (dist : List ℚ) :
    sim.find_equilibrium_carbon_prices dist =
      search_with_scalar_threshold sim (percentile75 dist) := rfl

/-- C3: for timber_value ≥ 0 the conventional cash-flow vector has length
exactly `time_horizon`, its year-0 entry is `timber + cattle` (timber added to,
not replacing, the regular revenue), even years carry the cattle revenue (plus
timber only at year 0), odd years carry the soy revenue, and trial `i` of the
simulation uses the single sampled pair `(cattle_revenues[i], soy_revenues[i])`
for its entire horizon (no per-year resampling). -/
theorem C3_conventional_cash_flows_shape (timber cattle soy : ℚ) (h : ℕ)
    (htv : 0 ≤ timber) (hh : 1 ≤ h) :
    (conventional_cash_flows timber cattle soy h).length = h ∧
    (conventional_cash_flows timber cattle soy h).getD 0 0 = timber + cattle ∧
    (∀ t, t < h → t % 2 = 0 →
      (conventional_cash_flows timber cattle soy h).getD t 0 =
        (if t = 0 then timber else 0) + cattle) ∧
    (∀ t, t < h → t % 2 = 1 →
      (conventional_cash_flows timber cattle soy h).getD t 0 = soy) ∧
    (∀ (sim : CarbonCreditSimulation) (cm cs sm ss : ℚ) (z1 z2 : ℕ → ℚ) (i : ℕ),
      i < sim.num_simulations →
      (sim.simulate_conventional_use timber cm cs sm ss z1 z2).getD i 0 =
        calculate_npv
          (conventional_cash_flows timber (cm + cs * z1 i) (sm + ss * z2 i)
            sim.TIME_HORIZON) sim.DISCOUNT_RATE) := by
  have hval : ∀ t, t < h → (conventional_cash_flows timber cattle soy h).getD t 0 =
      (if t = 0 ∧ timber > 0 then timber else 0) +
        (if t % 2 = 0 then cattle else soy) := by
    intro t ht
    unfold conventional_cash_flows
    rw [getD_map_range _ ht]
  refine ⟨by simp [conventional_cash_flows], ?_, ?_, ?_, ?_⟩
  · rw [hval 0 hh]
    rcases eq_or_lt_of_le htv with h0 | h0
    · simp [← h0]
    · simp [h0]
  · intro t ht heven
    rw [hval t ht, heven]
    by_cases ht0 : t = 0
    · rcases eq_or_lt_of_le htv with h0 | h0
      · simp [ht0, ← h0]
      · simp [ht0, h0]
    · simp [ht0]
  · intro t ht hodd
    have ht0 : t ≠ 0 := by
      intro h0
      rw [h0] at hodd
      exact absurd hodd (by norm_num)
    rw [hval t ht]
    simp [ht0, hodd]
  · intro sim cm cs sm ss z1 z2 i hi
    unfold CarbonCreditSimulation.simulate_conventional_use
      CarbonCreditSimulation.generate_price_scenarios
    rw [getD_map_range _ hi, getD_map_range _ hi, getD_map_range _ hi]

/-- Witness for C3 at `timber = 5000`, `cattle = 800`, `soy = 6100`, `h = 3`. -/
theorem C3_conventional_cash_flows_shape_witness :
    (0:ℚ) ≤ 5000 ∧ 1 ≤ 3 ∧
      ((conventional_cash_flows 5000 800 6100 3).length = 3 ∧
        (conventional_cash_flows 5000 800 6100 3).getD 0 0 = 5000 + 800 ∧
        (∀ t, t < 3 → t % 2 = 0 →
          (conventional_cash_flows 5000 800 6100 3).getD t 0 =
            (if t = 0 then (5000:ℚ) else 0) + 800) ∧
        (∀ t, t < 3 → t % 2 = 1 →
          (conventional_cash_flows 5000 800 6100 3).getD t 0 = 6100) ∧
        (∀ (sim : CarbonCreditSimulation) (cm cs sm ss : ℚ) (z1 z2 : ℕ → ℚ) (i : ℕ),
          i < sim.num_simulations →
          (sim.simulate_conventional_use 5000 cm cs sm ss z1 z2).getD i 0 =
            calculate_npv
              (conventional_cash_flows 5000 (cm + cs * z1 i) (sm + ss * z2 i)
                sim.TIME_HORIZON) sim.DISCOUNT_RATE)) :=
  ⟨by norm_num, by norm_num,
    C3_conventional_cash_flows_shape 5000 800 6100 3 (by norm_num) (by norm_num)⟩


/-- Membership in `linspace start stop num` means being one of the `num`
evenly spaced points. -/
lemma mem_linspace_iff {x start stop : ℚ} {num : ℕ} :
    x ∈ linspace start stop num ↔
      ∃ i : ℕ, i < num ∧ x = start + (stop - start) * (i : ℚ) / ((num : ℚ) - 1) := by
  constructor
  · intro hx
    unfold linspace at hx
    rw [List.mem_map] at hx
    obtain ⟨i, hi, hxi⟩ := hx
    exact ⟨i, List.mem_range.mp hi, hxi.symm⟩
  · rintro ⟨i, hi, rfl⟩
    unfold linspace
    rw [List.mem_map]
    exact ⟨i, List.mem_range.mpr hi, rfl⟩

/-- `0` is the first point of the stock-price axis. -/
lemma zero_mem_stock_credit_prices : (0:ℚ) ∈ stock_credit_prices := by
  unfold stock_credit_prices
  rw [mem_linspace_iff]
  exact ⟨0, by norm_num, by norm_num⟩

/-- `0` is the first point of the flow-price axis. -/
lemma zero_mem_flow_credit_prices : (0:ℚ) ∈ flow_credit_prices := by
  unfold flow_credit_prices
  rw [mem_linspace_iff]
  exact ⟨0, by norm_num, by norm_num⟩

/-- C1: for every discount rate in (0,1), horizon ≥ 1, and grid prices, the
conservation cash-flow vector has length `TIME_HORIZON`, year 0 equals
`CARBON_STOCK * stock_price`, every year `1..h-1` equals
`ANNUAL_ABSORPTION * flow_price` (year 0 never receives the flow payment), and
the search retains `(stock_price, flow_price, conservation_npv)` iff the NPV is
at least the 75th percentile of the conventional NPV distribution. -/
theorem C1_equilibrium_search_retention (sim : CarbonCreditSimulation)
    (dist : List ℚ) (hr0 : 0 < sim.DISCOUNT_RATE) (hr1 : sim.DISCOUNT_RATE < 1)
    (hh : 1 ≤ sim.TIME_HORIZON) (s f : ℚ)
    (hs : s ∈ stock_credit_prices) (hf : f ∈ flow_credit_prices) :
    (conservation_cash_flow_vec sim s f).length = sim.TIME_HORIZON ∧
    (conservation_cash_flow_vec sim s f).getD 0 0 = sim.CARBON_STOCK * s ∧
    (∀ t, 1 ≤ t → t < sim.TIME_HORIZON →
      (conservation_cash_flow_vec sim s f).getD t 0 = sim.ANNUAL_ABSORPTION * f) ∧
    ((s, f, conservation_npv sim s f) ∈ sim.find_equilibrium_carbon_prices dist ↔
      conservation_npv sim s f ≥ percentile75 dist) := by
  have hval : ∀ t, t < sim.TIME_HORIZON →
      (conservation_cash_flow_vec sim s f).getD t 0 =
        if t = 0 then sim.CARBON_STOCK * s else sim.ANNUAL_ABSORPTION * f := by
    intro t ht
    unfold conservation_cash_flow_vec
    rw [getD_map_range _ ht]
  refine ⟨by simp [conservation_cash_flow_vec], by rw [hval 0 hh]; simp, ?_, ?_⟩
  · intro t ht1 ht2
    rw [hval t ht2, if_neg (by omega)]
  · unfold CarbonCreditSimulation.find_equilibrium_carbon_prices
    constructor
    · intro hmem
      rw [List.mem_flatMap] at hmem
      obtain ⟨a, ha, hmem⟩ := hmem
      rw [List.mem_filterMap] at hmem
      obtain ⟨b, hb, heq⟩ := hmem
      by_cases hc : conservation_npv sim a b ≥ percentile75 dist
      · simp only [hc, if_pos] at heq
        rw [Option.some_inj, Prod.mk.injEq, Prod.mk.injEq] at heq
        obtain ⟨h1, h2, -⟩ := heq
        rw [← h1, ← h2]
        exact hc
      · simp only [hc, if_neg, not_false_iff] at heq
        exact absurd heq (by simp)
    · intro hge
      rw [List.mem_flatMap]
      refine ⟨s, hs, ?_⟩
      rw [List.mem_filterMap]
      exact ⟨f, hf, by simp only [hge, if_pos]⟩

/-- Witness for C1 at the scenario configuration and the grid corner
`(0, 0)`. -/
theorem C1_equilibrium_search_retention_witness :
    (0:ℚ) < (CarbonCreditSimulation.init 1 (2/25) 2).DISCOUNT_RATE ∧
    (CarbonCreditSimulation.init 1 (2/25) 2).DISCOUNT_RATE < 1 ∧
    ((0:ℚ) ∈ stock_credit_prices) ∧
      ((conservation_cash_flow_vec (CarbonCreditSimulation.init 1 (2/25) 2) 0 0).length =
          (CarbonCreditSimulation.init 1 (2/25) 2).TIME_HORIZON ∧
        (conservation_cash_flow_vec (CarbonCreditSimulation.init 1 (2/25) 2) 0 0).getD 0 0 =
          (CarbonCreditSimulation.init 1 (2/25) 2).CARBON_STOCK * 0 ∧
        (∀ t, 1 ≤ t → t < (CarbonCreditSimulation.init 1 (2/25) 2).TIME_HORIZON →
          (conservation_cash_flow_vec (CarbonCreditSimulation.init 1 (2/25) 2) 0 0).getD t 0 =
            (CarbonCreditSimulation.init 1 (2/25) 2).ANNUAL_ABSORPTION * 0) ∧
        ((0, 0, conservation_npv (CarbonCreditSimulation.init 1 (2/25) 2) 0 0) ∈
            (CarbonCreditSimulation.init 1 (2/25) 2).find_equilibrium_carbon_prices [0] ↔
          conservation_npv (CarbonCreditSimulation.init 1 (2/25) 2) 0 0 ≥
            percentile75 [0])) :=
  ⟨by norm_num [CarbonCreditSimulation.init], by norm_num [CarbonCreditSimulation.init],
    zero_mem_stock_credit_prices,
    C1_equilibrium_search_retention (CarbonCreditSimulation.init 1 (2/25) 2) [0]
      (by norm_num [CarbonCreditSimulation.init])
      (by norm_num [CarbonCreditSimulation.init])
      (by norm_num [CarbonCreditSimulation.init]) 0 0
      zero_mem_stock_credit_prices zero_mem_flow_credit_prices⟩

/-- C5: for non-negative `CARBON_STOCK` and `ANNUAL_ABSORPTION` and a discount
rate in (0,1), increasing `stock_price` alone, or `flow_price` alone, never
decreases the conservation NPV of a grid point (the fixed competitiveness
threshold plays no role in the NPV itself). -/
theorem C5_conservation_npv_monotone (sim : CarbonCreditSimulation)
    (hCS : 0 ≤ sim.CARBON_STOCK) (hAA : 0 ≤ sim.ANNUAL_ABSORPTION)
    (hr0 : 0 < sim.DISCOUNT_RATE) (hr1 : sim.DISCOUNT_RATE < 1)
    (s1 s2 f1 f2 s f : ℚ) (hs : s1 ≤ s2) (hf : f1 ≤ f2) :
    conservation_npv sim s1 f ≤ conservation_npv sim s2 f ∧
    conservation_npv sim s f1 ≤ conservation_npv sim s f2 := by
  have h1r : (0:ℚ) < 1 + sim.DISCOUNT_RATE := by linarith
  have hw : ∀ t : ℕ, (0:ℚ) ≤ 1 / (1 + sim.DISCOUNT_RATE) ^ t := fun t => by positivity
  constructor
  · rw [conservation_npv_eq_sum, conservation_npv_eq_sum]
    apply Finset.sum_le_sum
    intro t _
    by_cases ht : t = 0
    · rw [ht]
      simp only [if_pos rfl]
      exact mul_le_mul_of_nonneg_right (mul_le_mul_of_nonneg_left hs hCS) (hw 0)
    · rw [if_neg ht, if_neg ht]
  · rw [conservation_npv_eq_sum, conservation_npv_eq_sum]
    apply Finset.sum_le_sum
    intro t _
    by_cases ht : t = 0
    · rw [ht]
      simp
    · rw [if_neg ht, if_neg ht]
      exact mul_le_mul_of_nonneg_right (mul_le_mul_of_nonneg_left hf hAA) (hw t)

/-- Witness for C5 at the default configuration and prices
`s1 = 10 ≤ s2 = 20`, `f1 = 30 ≤ f2 = 40`. -/
theorem C5_conservation_npv_monotone_witness :
    (0:ℚ) ≤ (CarbonCreditSimulation.init 1 (2/25) 2).CARBON_STOCK ∧
    (0:ℚ) < (CarbonCreditSimulation.init 1 (2/25) 2).DISCOUNT_RATE ∧
      (conservation_npv (CarbonCreditSimulation.init 1 (2/25) 2) 10 5 ≤
          conservation_npv (CarbonCreditSimulation.init 1 (2/25) 2) 20 5 ∧
        conservation_npv (CarbonCreditSimulation.init 1 (2/25) 2) 5 30 ≤
          conservation_npv (CarbonCreditSimulation.init 1 (2/25) 2) 5 40) :=
  ⟨by norm_num [CarbonCreditSimulation.init],
    by norm_num [CarbonCreditSimulation.init],
    C5_conservation_npv_monotone (CarbonCreditSimulation.init 1 (2/25) 2)
      (by norm_num [CarbonCreditSimulation.init])
      (by norm_num [CarbonCreditSimulation.init])
      (by norm_num [CarbonCreditSimulation.init])
      (by norm_num [CarbonCreditSimulation.init])
      10 20 30 40 5 5 (by norm_num) (by norm_num)⟩

/-- C7: the full pipeline is deterministic given the random stream: two runs
with identical configuration whose noise streams agree on every trial index
below `num_simulations` produce identical summary records, identical
equilibrium sets and identical conventional NPV distributions. -/
theorem C7_run_simulation_deterministic (sim : CarbonCreditSimulation)
    (timber cm cs sm ss : ℚ) (z1c z1s z2c z2s : ℕ → ℚ)
    (hc : ∀ i, i < sim.num_simulations → z1c i = z2c i)
    (hs : ∀ i, i < sim.num_simulations → z1s i = z2s i) :
    sim.run_simulation timber cm cs sm ss z1c z1s =
      sim.run_simulation timber cm cs sm ss z2c z2s := by
  have hgen : ∀ (m sd : ℚ) (za zb : ℕ → ℚ),
      (∀ i, i < sim.num_simulations → za i = zb i) →
      sim.generate_price_scenarios m sd za = sim.generate_price_scenarios m sd zb := by
    intro m sd za zb hz
    unfold CarbonCreditSimulation.generate_price_scenarios
    exact List.map_congr_left fun i hi => by rw [hz i (List.mem_range.mp hi)]
  unfold CarbonCreditSimulation.run_simulation
    CarbonCreditSimulation.simulate_conventional_use
  rw [hgen cm cs z1c z2c hc, hgen sm ss z1s z2s hs]

/-- Witness for C7: two streams that agree on index 0 (the only trial) but
differ beyond it give identical outputs. -/
theorem C7_run_simulation_deterministic_witness :
    (CarbonCreditSimulation.init 1 (2/25) 2).run_simulation 0 800 200 6100 300
        (fun _ => 0) (fun _ => 0) =
      (CarbonCreditSimulation.init 1 (2/25) 2).run_simulation 0 800 200 6100 300
        (fun i => if i = 0 then 0 else 1) (fun i => if i = 0 then 0 else 7) :=
  C7_run_simulation_deterministic (CarbonCreditSimulation.init 1 (2/25) 2)
    0 800 200 6100 300 _ _ _ _
    (fun i hi => by
      have h0 : i = 0 := Nat.lt_one_iff.mp hi
      simp [h0])
    (fun i hi => by
      have h0 : i = 0 := Nat.lt_one_iff.mp hi
      simp [h0])

/-- C9: with `cattle_mean = 800`, `cattle_std = 0`, `soy_mean = 6100`,
`soy_std = 0`, `timber_value = 0`, `time_horizon = 2`, `discount_rate = 0`,
the simulation runs on the degenerate zero-standard-deviation distributions
(every draw collapses to the constant mean, whatever the underlying noise
stream) and the single trial's conventional NPV is exactly `6900`. -/
theorem C9_zero_std_degenerate (z1 z2 : ℕ → ℚ) :
    (CarbonCreditSimulation.init 1 0 2).simulate_conventional_use 0 800 0 6100 0 z1 z2 =
      [6900] := by
  unfold CarbonCreditSimulation.simulate_conventional_use
    CarbonCreditSimulation.generate_price_scenarios CarbonCreditSimulation.init
    conventional_cash_flows calculate_npv
  norm_num [List.range_succ]

/-- C6: the code performs no configuration validation anywhere: with
`discount_rate = 2 ∉ (0,1)` the constructor stores the rate unchecked and the
simulation still samples and returns a numeric NPV distribution — no
`InvalidConfiguration` error exists in the program. -/
theorem C6_no_configuration_validation :
    (CarbonCreditSimulation.init 1 2 2).DISCOUNT_RATE = 2 ∧
    (CarbonCreditSimulation.init 1 2 2).simulate_conventional_use 0 800 0 6100 0
        (fun _ => 0) (fun _ => 0) = [800 + 6100 / 3] := by
  refine ⟨rfl, ?_⟩
  unfold CarbonCreditSimulation.simulate_conventional_use
    CarbonCreditSimulation.generate_price_scenarios CarbonCreditSimulation.init
    conventional_cash_flows calculate_npv
  norm_num [List.range_succ]

/-- Every point of a `linspace 0 1000 100` price axis lies in `[0, 1000]`. -/
lemma mem_price_axis_bounds {x : ℚ} (hx : x ∈ linspace 0 1000 100) :
    0 ≤ x ∧ x ≤ 1000 := by
  rw [mem_linspace_iff] at hx
  obtain ⟨i, hi, rfl⟩ := hx
  have hiq : (i : ℚ) ≤ 99 := by exact_mod_cast Nat.le_of_lt_succ hi
  have hiq0 : (0:ℚ) ≤ (i : ℚ) := Nat.cast_nonneg i
  constructor
  · positivity
  · have h99 : ((100:ℕ):ℚ) - 1 = 99 := by norm_num
    rw [h99]
    linarith

/-- Closed form of the conservation NPV at the scenario configuration
`discount_rate = 0.08`, `time_horizon = 2`. -/
lemma conservation_npv_horizon_two (s f : ℚ) :
    conservation_npv (CarbonCreditSimulation.init 1 (2/25) 2) s f =
      569 * s + 19/2 * f * (25/27) := by
  rw [conservation_npv_eq_sum]
  norm_num [CarbonCreditSimulation.init, Finset.sum_range_succ]

/-- A conventional NPV distribution whose 75th percentile exceeds every
achievable conservation NPV on the `[0,1000]²` grid produces an empty
equilibrium set. -/
lemma find_equilibrium_empty_at_high_threshold :
    (CarbonCreditSimulation.init 1 (2/25) 2).find_equilibrium_carbon_prices
      [1000000] = [] := by
  rw [List.eq_nil_iff_forall_not_mem]
  intro x hx
  unfold CarbonCreditSimulation.find_equilibrium_carbon_prices at hx
  rw [List.mem_flatMap] at hx
  obtain ⟨s, hs, hx⟩ := hx
  rw [List.mem_filterMap] at hx
  obtain ⟨f, hf, heq⟩ := hx
  have hp : percentile75 [1000000] = 1000000 := by
    norm_num [percentile75, List.insertionSort, List.orderedInsert]
  by_cases hc : conservation_npv (CarbonCreditSimulation.init 1 (2/25) 2) s f ≥
      percentile75 [1000000]
  · obtain ⟨hs0, hs1⟩ := mem_price_axis_bounds hs
    obtain ⟨hf0, hf1⟩ := mem_price_axis_bounds hf
    rw [conservation_npv_horizon_two, hp] at hc
    nlinarith
  · simp only [hc, if_neg, not_false_iff] at heq
    exact absurd heq (by simp)

/-- C4: the result summarization does NOT detect the empty equilibrium set:
with a conventional distribution beyond the reach of every grid point the
search legitimately returns the empty set, and the unguarded column accesses
`equilibrium_prices['stock_price']` then fail (`KeyError` on the empty
DataFrame, modelled by `none`) instead of returning a distinct "no equilibrium
found" variant. -/
theorem C4_empty_equilibrium_not_handled :
    (CarbonCreditSimulation.init 1 (2/25) 2).find_equilibrium_carbon_prices
        [1000000] = [] ∧
    run_simulation_results [1000000]
        ((CarbonCreditSimulation.init 1 (2/25) 2).find_equilibrium_carbon_prices
          [1000000]) = none := by
  refine ⟨find_equilibrium_empty_at_high_threshold, ?_⟩
  rw [find_equilibrium_empty_at_high_threshold]
  rfl

/-- `10` is not a point of the stock-price axis `np.linspace(0, 1000, 100)`:
the axis points are the multiples of `1000/99`. -/
lemma ten_not_mem_stock_credit_prices : (10:ℚ) ∉ stock_credit_prices := by
  intro h
  unfold stock_credit_prices at h
  rw [mem_linspace_iff] at h
  obtain ⟨i, hi, heq⟩ := h
  have h99 : ((100:ℕ):ℚ) - 1 = 99 := by norm_num
  rw [h99] at heq
  have hq : (1000:ℚ) * (i : ℚ) = 990 := by
    field_simp at heq
    linarith
  have hn : 1000 * i = 990 := by exact_mod_cast hq
  omega

/-- C8 counterexample: the claim places `(stock_price, flow_price) = (10, 10)`
in the equilibrium set, but `10` is not one of the `np.linspace(0, 1000, 100)`
grid values (those are the multiples of `1000/99`), so the triple
`(10, 10, 5690 + 95/1.08)` never appears in the set produced by the search,
even at threshold `0`. -/
theorem C8_point_not_in_equilibrium_set :
    (10, 10, (5690:ℚ) + 95 / (1 + 2/25)) ∉
      (CarbonCreditSimulation.init 1 (2/25) 2).find_equilibrium_carbon_prices [0] := by
  intro hmem
  unfold CarbonCreditSimulation.find_equilibrium_carbon_prices at hmem
  rw [List.mem_flatMap] at hmem
  obtain ⟨a, ha, hmem⟩ := hmem
  rw [List.mem_filterMap] at hmem
  obtain ⟨b, hb, heq⟩ := hmem
  by_cases hc : conservation_npv (CarbonCreditSimulation.init 1 (2/25) 2) a b ≥
      percentile75 [0]
  · simp only [hc, if_pos] at heq
    rw [Option.some_inj, Prod.mk.injEq, Prod.mk.injEq] at heq
    obtain ⟨h1, -, -⟩ := heq
    exact ten_not_mem_stock_credit_prices (h1 ▸ ha)
  · simp only [hc, if_neg, not_false_iff] at heq
    exact absurd heq (by simp)

/-- C8 amended: with `carbon_stock = 569`, `annual_absorption = 9.5`,
`discount_rate = 0.08`, `time_horizon = 2` and threshold `0`, evaluating the
search's per-point rule at `stock_price = flow_price = 10` gives the
conservation cash-flow vector `[5690, 95]` and conservation NPV
`5690 + 95/1.08 (≈ 5777.96)`, which clears the threshold, so `(10, 10)`
satisfies the retention condition — but `(10, 10)` is not itself one of the
code's `linspace(0, 1000, 100)` grid points, so it does not literally appear
in the EquilibriumSet. -/
theorem C8_point_rule_evaluation :
    conservation_cash_flow_vec (CarbonCreditSimulation.init 1 (2/25) 2) 10 10 =
      [5690, 95] ∧
    conservation_npv (CarbonCreditSimulation.init 1 (2/25) 2) 10 10 =
      5690 + 95 / (1 + 2/25) ∧
    conservation_npv (CarbonCreditSimulation.init 1 (2/25) 2) 10 10 ≥
      percentile75 [0] := by
  refine ⟨?_, ?_, ?_⟩
  · norm_num [conservation_cash_flow_vec, CarbonCreditSimulation.init,
      List.range_succ]
  · rw [conservation_npv_horizon_two]
    norm_num
  · rw [conservation_npv_horizon_two]
    norm_num [percentile75, List.insertionSort, List.orderedInsert]
